import Mathlib

/-!
Verification development for the LibLearner extraction pipeline
(src/liblearner/liblearner/file_processor.py and
src/liblearner/liblearner/processors/python_processor.py).

Each definition below is a shallow embedding of one piece of the Python
source; line references point into the repository files.  Machine state
(the ProcessorRegistry instance) is passed explicitly, exceptions are
modelled as alternative return values, and the file system / processor
environment that a single call observes is bundled into explicit input
structures.
-/

/-! ## FileTypeDetector (file_processor.py, lines 99-178) -/

/-- Index of the last occurrence of a character in a list, as in str.rfind. -/
def lastIndexOf (c : Char) : List Char → Option Nat
  | [] => none
  | x :: xs =>
    match lastIndexOf c xs with
    | some i => some (i + 1)
    | none => if x == c then some 0 else none

/-- Extension part of os.path.splitext: the extension starts at the last dot,
provided that dot lies after the last path separator and some character
between the separator and that dot is not itself a dot (so dotfiles such as
".git" have an empty extension). -/
def splitextExt (p : String) : String :=
  let cs := p.data
  let sepIdx : Int := match lastIndexOf '/' cs with | some i => (i : Int) | none => -1
  match lastIndexOf '.' cs with
  | none => ""
  | some d =>
    if sepIdx < (d : Int) then
      let start := (sepIdx + 1).toNat
      if (List.range (d - start)).any (fun k => !(cs.getD (start + k) '.' == '.')) then
        String.mk (cs.drop d)
      else ""
    else ""

/-- Lower-casing as str.lower restricted to ASCII, which is all the detector compares. -/
def lowerStr (s : String) : String := String.mk (s.data.map Char.toLower)

/-- The static extension table self._extension_mime_types (lines 107-121). -/
def extensionMimeTypes : List (String × String) :=
  [(".py", "text/x-python"),
   (".pyi", "text/x-python"),
   (".pyw", "text/x-python-executable"),
   (".ipynb", "application/x-ipynb+json"),
   (".txt", "text/plain"),
   (".md", "text/markdown"),
   (".mdx", "text/mdx"),
   (".json", "application/json"),
   (".yaml", "text/x-yaml"),
   (".yml", "text/x-yaml"),
   (".js", "application/javascript"),
   (".sh", "application/x-shellscript"),
   (".bash", "application/x-shellscript")]

/-- Lookup in the extension table. -/
def lookupMime (ext : String) : Option String :=
  (extensionMimeTypes.find? (fun kv => kv.1 == ext)).map (fun kv => kv.2)

/-- What one detect_type call observes about the file system: the path, the
os.path.exists / os.path.isdir / os.path.getsize answers, what
magic.Magic.from_file would return (none models the library raising), and
what mimetypes.guess_type would return (none models a None guess). -/
structure FsFileInfo where
  path : String
  fsExists : Bool
  isDir : Bool
  size : Nat
  magicMime : Option String
  guessedMime : Option String
deriving DecidableEq

/-- The empty-file fallback cascade of detect_type (lines 142-170), first
match wins; the later elif arms repeating earlier conditions are dead and
collapse into the first occurrence. -/
def emptyFileMime (ext : String) : String :=
  if ext == ".py" then "text/x-python"
  else if ext == ".pyw" then "text/x-python-executable"
  else if ext == ".md" then "text/markdown"
  else if ext == ".mdx" then "text/mdx"
  else if ext == ".js" then "text/javascript"
  else if ext == ".yaml" || ext == ".yml" then "text/x-yaml"
  else if ext == ".ipynb" then "application/x-ipynb+json"
  else if ext == ".sh" || ext == ".bash" then "application/x-shellscript"
  else if ext == ".json" then "application/json"
  else "text/plain"

/-- FileTypeDetector.detect_type (lines 123-178): missing paths and
directories give the empty type; then the extension table is consulted
before any content is read; then the empty-file cascade; then magic
sniffing with a mimetypes fallback defaulting to application/octet-stream. -/
def detectType (f : FsFileInfo) : String :=
  if !f.fsExists || f.isDir then ""
  else
    let ext := lowerStr (splitextExt f.path)
    match lookupMime ext with
    | some t => t
    | none =>
      if f.size == 0 then emptyFileMime ext
      else
        match f.magicMime with
        | some t => t
        | none =>
          match f.guessedMime with
          | some t => t
          | none => "application/octet-stream"

/-! ## ProcessorRegistry chunk state (file_processor.py, lines 180-487)

Rows of a pandas DataFrame are opaque payloads here; only their identity
and order matter to the claims, so a DataFrame is a list of row ids. -/

/-- One element of a current-chunk list: the dict appended at lines 437-440,
holding the file basename and the DataFrame obtained for it. -/
structure ChunkEntry where
  filename : String
  data : List Nat
deriving DecidableEq

/-- The in-memory chunk self._current_chunk: an insertion-ordered dict from
detected file type to the list of per-file entries (defaultdict(list)). -/
abbrev Chunk := List (String × List ChunkEntry)

/-- self._current_chunk[file_type].append(entry): extend the list under the
key if present, otherwise insert the key at the end (dict insertion order). -/
def chunkAppend (c : Chunk) (ft : String) (e : ChunkEntry) : Chunk :=
  match c with
  | [] => [(ft, [e])]
  | (k, es) :: rest =>
    if k == ft then (k, es ++ [e]) :: rest else (k, es) :: chunkAppend rest ft e

/-- len(self._current_chunk): length of a dict is its number of KEYS, i.e.
the number of distinct file types present, not the number of file entries. -/
def chunkLen (c : Chunk) : Nat := c.length

/-- Number of distinct file entries held in a chunk (what the spec calls the
size of the Chunk); used to state claim C1 against the code. -/
def chunkFileEntryCount (c : Chunk) : Nat := (c.map (fun kv => kv.2.length)).sum

/-- Mutable registry state relevant to processing: the ProcessingLedger
self._processed_files (insertion order kept), the in-memory chunk, the
chunk counter, the chunk files already written to the scratch directory
(number paired with content), and self._chunk_size. -/
structure RegistryState where
  processedFiles : List String
  currentChunk : Chunk
  chunkCounter : Nat
  chunkFiles : List (Nat × Chunk)
  chunkSize : Nat
deriving DecidableEq

/-- Everything one process_file call observes about its file and processor:
existence, the canonical absolute path, basename, the detect_type answer,
whether get_processor found a processor, whether processor.process_file
raised, whether it returned None, the is_valid() verdict, whether the
processor.get_results_dataframe() attribute lookup raises AttributeError
(true for every processor shipped in the repository, since neither the
FileProcessor base class at lines 46-97 nor any module under processors/
defines that method), the DataFrame it would yield otherwise, and whether
the pickle.dump inside _write_chunk would fail. -/
structure FileOutcome where
  fsExists : Bool
  absPath : String
  filename : String
  fileType : String
  processorFound : Bool
  processRaises : Bool
  resultIsNone : Bool
  resultValid : Bool
  grdfRaises : Bool
  grdfData : List Nat
  chunkWriteFails : Bool
deriving DecidableEq

/-- ProcessorRegistry._write_chunk (lines 282-313), success path: serialize
the current chunk under the current counter, clear it, bump the counter.
The empty-chunk early return at line 284 is kept. -/
def writeChunk (st : RegistryState) : RegistryState :=
  if st.currentChunk.isEmpty then st
  else
    { st with
      chunkFiles := st.chunkFiles ++ [(st.chunkCounter, st.currentChunk)],
      currentChunk := [],
      chunkCounter := st.chunkCounter + 1 }

/-- ProcessorRegistry.process_file (lines 404-487).  Returns the new state
and what the caller receives: none for a None return, some b for a
ProcessingResult whose is_valid() is b.  Exceptions raised inside the try
block (processor.process_file failures, the AttributeError from the missing
get_results_dataframe, a _write_chunk failure re-raised at line 313) are all
caught at line 473 and converted to a None return; the chunk entry appended
at line 437 is kept in memory in that last case, and the ledger marking at
line 461 only runs after a successful (or unneeded) flush. -/
def processFile (st : RegistryState) (f : FileOutcome) : RegistryState × Option Bool :=
  if f.fsExists = false then (st, none)
  else if st.processedFiles.contains f.absPath then (st, none)
  else if f.processorFound = false then (st, none)
  else if f.processRaises then (st, none)
  else if f.resultIsNone then (st, none)
  else if f.resultValid = false then (st, some false)
  else if f.grdfRaises then (st, none)
  else
    let st1 := { st with currentChunk := chunkAppend st.currentChunk f.fileType ⟨f.filename, f.grdfData⟩ }
    if st.chunkSize ≤ chunkLen st1.currentChunk then
      if f.chunkWriteFails then (st1, none)
      else ({ writeChunk st1 with processedFiles := st1.processedFiles ++ [f.absPath] }, some true)
    else ({ st1 with processedFiles := st1.processedFiles ++ [f.absPath] }, some true)

/-- The per-file loop of process_directory (lines 540-565): files are fed to
process_file in walk order; every exception is already absorbed inside
process_file, and the loop records each return value and moves on. -/
def processFiles (st : RegistryState) (fs : List FileOutcome) : RegistryState × List (Option Bool) :=
  match fs with
  | [] => (st, [])
  | f :: rest =>
    let p := processFile st f
    let q := processFiles p.1 rest
    (q.1, p.2 :: q.2)

/-! ## Result materialization (file_processor.py, lines 574-676) -/

/-- The module-level import list of file_processor.py (lines 6-23).  pickle
is absent: the only import of pickle in the file is local to _write_chunk
(line 295), so the name pickle is not defined in module scope when
write_results_to_csv runs. -/
def fileProcessorModuleImports : List String :=
  ["os", "mimetypes", "magic", "typing", "abc", "sys", "logging", "time", "psutil",
   "pathlib", "collections", "pandas", "tqdm", "processing_result", "glob", "numpy",
   "shutil", "gc"]

/-- Whether the name pickle resolves in write_results_to_csv: it does not,
so pickle.load at line 598 raises NameError for every chunk file. -/
def pickleInModuleScope : Bool := fileProcessorModuleImports.contains "pickle"

/-- Chunk file naming, line 288. -/
def chunkFileName (n : Nat) : String := "chunk_" ++ toString n ++ ".pkl"

/-- Lexicographic code-point comparison of character lists: the order Python
sorted() applies to str values. -/
def strLtb : List Char → List Char → Bool
  | [], [] => false
  | [], _ :: _ => true
  | _ :: _, [] => false
  | a :: as, b :: bs =>
    if a.toNat < b.toNat then true
    else if b.toNat < a.toNat then false
    else strLtb as bs

/-- Lexicographic string comparison, as used by sorted() at line 585. -/
def strLt (a b : String) : Bool := strLtb a.data b.data

/-- Insertion step of the lexicographic filename sort used at line 585. -/
def insertByName (x : Nat × Chunk) : List (Nat × Chunk) → List (Nat × Chunk)
  | [] => [x]
  | y :: ys =>
    if strLt (chunkFileName x.1) (chunkFileName y.1) then x :: y :: ys else y :: insertByName x ys

/-- sorted(glob.glob(... chunk_*.pkl)) at line 585: the chunk files ordered
by their file NAMES as strings, i.e. lexicographically, not numerically. -/
def sortChunkFiles (l : List (Nat × Chunk)) : List (Nat × Chunk) :=
  l.foldr insertByName []

/-- Accumulator state of the chunk loop in write_results_to_csv: the
defaultdict all_dfs (file type to list of DataFrames, insertion ordered),
the DataFrame count current_chunk_size, and the rows currently present in
the combined output CSV. -/
structure MatAccum where
  allDfs : List (String × List (List Nat))
  dfCount : Nat
  outputRows : List Nat
deriving DecidableEq

/-- all_dfs[file_type].extend(dfs) on the insertion-ordered dict. -/
def dfsAppend (ad : List (String × List (List Nat))) (ft : String) (dfs : List (List Nat)) :
    List (String × List (List Nat)) :=
  match ad with
  | [] => [(ft, dfs)]
  | (k, ds) :: rest =>
    if k == ft then (k, ds ++ dfs) :: rest else (k, ds) :: dfsAppend rest ft dfs

/-- _write_intermediate_results in combined mode (lines 644-661): concatenate
every accumulated DataFrame in dict order and write the rows to
combined_results.csv.  The first to_csv of each call uses mode w, so a call
REPLACES whatever the file held from an earlier call. -/
def writeIntermediateCombined (ma : MatAccum) : MatAccum :=
  let dfs := ma.allDfs.foldl (fun acc kv => acc ++ kv.2) []
  if dfs.isEmpty then ma
  else { ma with outputRows := dfs.foldl (fun acc df => acc ++ df) [] }

/-- One iteration of the chunk loop (lines 594-626).  With pickle unresolved
in module scope the pickle.load call raises NameError, the except arm at
line 625 logs it, and the iteration leaves the accumulator untouched.
Otherwise the chunk's per-type DataFrame lists are folded into all_dfs and
an intermediate write fires once 1000 DataFrames have accumulated. -/
def matStep (ma : MatAccum) (cf : Nat × Chunk) : MatAccum :=
  if pickleInModuleScope = false then ma
  else
    let ma1 := cf.2.foldl
      (fun (a : MatAccum) kv =>
        let dfs := kv.2.map (fun e => e.data)
        if dfs.isEmpty then a
        else { a with allDfs := dfsAppend a.allDfs kv.1 dfs, dfCount := a.dfCount + dfs.length })
      ma
    if 1000 ≤ ma1.dfCount then
      { writeIntermediateCombined ma1 with allDfs := [], dfCount := 0 }
    else ma1

/-- ProcessorRegistry.write_results_to_csv in combined mode (lines 574-640):
sort the spilled chunk files by name, fold the chunk loop over them, flush a
final intermediate write if DataFrames remain, and in the finally block
remove the whole chunk directory.  Nothing in the procedure touches
self._current_chunk: the in-memory chunk is never flushed here. -/
def writeResultsToCsvCombined (st : RegistryState) : List Nat × RegistryState :=
  let ordered := sortChunkFiles st.chunkFiles
  let ma := ordered.foldl matStep ⟨[], 0, []⟩
  let ma2 := if 0 < ma.dfCount then writeIntermediateCombined ma else ma
  (ma2.outputRows, { st with chunkFiles := [] })

/-! ## Directory walk and ignore rules (file_processor.py, lines 489-572) -/

/-- DEFAULT_IGNORE_DIRS (line 26); the set is only membership-tested so a
list model suffices. -/
def defaultIgnoreDirs : List String :=
  ["venv", ".git", "ds_venv", "dw_env", "__pycache__", ".venv", "*.egg-info",
   ".github", "node_modules", "*tests*"]

/-- The star-in-pattern test used to split ignore patterns (lines 525-537). -/
def hasStar (p : String) : Bool := p.data.contains '*'

/-- exact_ignores built at lines 520-537: default plus user patterns without a star. -/
def exactIgnores (userIgnores : List String) : List String :=
  (defaultIgnoreDirs ++ userIgnores).filter (fun p => !hasStar p)

/-- glob_patterns built at lines 520-537.  The walk that follows never reads
this set: no code between line 538 and the end of process_directory mentions
it, so it is recorded here only to state claim C6. -/
def globIgnorePatterns (userIgnores : List String) : List String :=
  (defaultIgnoreDirs ++ userIgnores).filter hasStar

/-- A directory tree entry as os.walk traverses it. -/
inductive FsEntry where
  | file (name : String)
  | dir (name : String) (children : List FsEntry)

/-- Names of the plain files among a directory's children. -/
def childFileNames (children : List FsEntry) : List String :=
  children.filterMap (fun e => match e with | .file n => some n | .dir _ _ => none)

mutual
/-- The os.walk loop of process_directory (lines 540-546) restricted to the
paths it feeds to process_file: at each directory the files are visited,
then dirs is pruned IN PLACE by the exact-name filter at line 542
(d not in exact_ignores -- the only pruning the code performs) and the walk
descends into the surviving subdirectories. -/
def walkDir (exacts : List String) (root : String) (children : List FsEntry) : List String :=
  (childFileNames children).map (fun n => root ++ "/" ++ n) ++ walkSubdirs exacts root children
termination_by (sizeOf children, 1)

/-- Descend into the non-pruned subdirectories in order. -/
def walkSubdirs (exacts : List String) (root : String) : List FsEntry → List String
  | [] => []
  | .file _ :: rest => walkSubdirs exacts root rest
  | .dir n cs :: rest =>
    (if exacts.contains n then [] else walkDir exacts (root ++ "/" ++ n) cs)
      ++ walkSubdirs exacts root rest
termination_by l => (sizeOf l, 0)
end

/-- The file paths process_directory hands to process_file for a given tree
and user ignore list: pruning uses only the exact-name set; the glob set is
dead. -/
def processDirectoryWalk (userIgnores : List String) (root : String)
    (children : List FsEntry) : List String :=
  walkDir (exactIgnores userIgnores) root children

/-- Glob matching in the sense of Python fnmatch restricted to the star
wildcard; the source never calls it (that is the point of claim C6), it is
used here only to state which names the ignore globs cover. -/
def globMatchL : List Char → List Char → Bool
  | [], [] => true
  | [], _ :: _ => false
  | '*' :: ps, [] => globMatchL ps []
  | '*' :: ps, c :: cs => globMatchL ps (c :: cs) || globMatchL ('*' :: ps) cs
  | _ :: _, [] => false
  | p :: ps, c :: cs => p == c && globMatchL ps cs
termination_by p s => (p.length, s.length)

/-- Glob matching on strings. -/
def globMatches (pat s : String) : Bool := globMatchL pat.data s.data

/-! ## PythonProcessor (processors/python_processor.py, lines 24-261)

The AST shapes the processor dispatches on (_process_node, lines 125-142):
function definitions, class definitions, import and from-import statements,
assignments (only their ast.Name targets reach the output), and any other
node, which merely recurses into its children.  A module is its list of
top-level nodes. -/

inductive PyNode where
  | funcDef (name : String) (body : List PyNode)
  | classDef (name : String) (body : List PyNode)
  | importStmt (names : List String)
  | importFromStmt (moduleName : String) (names : List String)
  | assign (targets : List String)
  | otherNode (children : List PyNode)

/-- One entry of results_data (one output row).  The content, props and
filepath fields carry verbatim source text and file metadata that no claim
mentions, so they are omitted from the record model. -/
structure PyRecord where
  recType : String
  name : String
  parentPath : String
  order : Nat
deriving DecidableEq

/-- The processor's mutable traversal state: self._current_path and
self._order_counter. -/
structure PyState where
  currentPath : List String
  orderCounter : Nat
deriving DecidableEq

/-- PythonProcessor._get_current_path (lines 121-123). -/
def getCurrentPath (st : PyState) : String := String.intercalate "." st.currentPath

/-- PythonProcessor._process_import (lines 218-244), plain import arm: the
counter is incremented ONCE, then one row is appended per imported name, all
carrying that same order value. -/
def processImportStmt (st : PyState) (names : List String) : PyState × List PyRecord :=
  let st1 : PyState := ⟨st.currentPath, st.orderCounter + 1⟩
  (st1, names.map (fun nm => ⟨"import", nm, getCurrentPath st1, st1.orderCounter⟩))

/-- PythonProcessor._process_import, from-import arm: one increment, one row
per name qualified by the module. -/
def processImportFrom (st : PyState) (moduleName : String) (names : List String) :
    PyState × List PyRecord :=
  let st1 : PyState := ⟨st.currentPath, st.orderCounter + 1⟩
  (st1, names.map (fun nm => ⟨"import_from", moduleName ++ "." ++ nm, getCurrentPath st1, st1.orderCounter⟩))

/-- PythonProcessor._process_assignment (lines 246-261): only fires when the
current path has length at most one; one increment, one row per Name target,
all with the same order value. -/
def processAssign (st : PyState) (targets : List String) : PyState × List PyRecord :=
  if st.currentPath.length ≤ 1 then
    let st1 : PyState := ⟨st.currentPath, st.orderCounter + 1⟩
    (st1, targets.map (fun t => ⟨"declaration", t, getCurrentPath st1, st1.orderCounter⟩))
  else (st, [])

mutual
/-- PythonProcessor._process_node (lines 125-142): dispatch on the node kind;
unrecognised nodes recurse into all children. -/
def processNode (st : PyState) : PyNode → PyState × List PyRecord
  | .funcDef n body => processFunctionDef st n body
  | .classDef n body => processClassDef st n body
  | .importStmt names => processImportStmt st names
  | .importFromStmt m names => processImportFrom st m names
  | .assign targets => processAssign st targets
  | .otherNode children => processChildren st children
termination_by n => (sizeOf n, 0)

/-- PythonProcessor._process_function (lines 144-179): push the name, bump
the counter, emit the row (its type is method exactly when the pre-push path
was non-empty, and its parent_path is computed AFTER the push, so it includes
the function itself), recurse into the FunctionDef children only, then pop. -/
def processFunctionDef (st : PyState) (n : String) (body : List PyNode) :
    PyState × List PyRecord :=
  let st1 : PyState := ⟨st.currentPath ++ [n], st.orderCounter + 1⟩
  let row : PyRecord :=
    ⟨if st.currentPath.isEmpty then "function" else "method", n, getCurrentPath st1, st1.orderCounter⟩
  let p := processFuncBody st1 body
  (⟨p.1.currentPath.dropLast, p.1.orderCounter⟩, row :: p.2)
termination_by (sizeOf body, 1)

/-- The child loop of _process_function (lines 174-176): only FunctionDef
children are processed, directly through _process_function. -/
def processFuncBody (st : PyState) : List PyNode → PyState × List PyRecord
  | [] => (st, [])
  | PyNode.funcDef n b :: rest =>
    let p := processFunctionDef st n b
    let q := processFuncBody p.1 rest
    (q.1, p.2 ++ q.2)
  | _ :: rest => processFuncBody st rest
termination_by l => (sizeOf l, 0)

/-- PythonProcessor._process_class (lines 181-216): push, bump, emit the row
(parent_path again computed after the push), recurse into FunctionDef and
ClassDef children through _process_node, pop. -/
def processClassDef (st : PyState) (n : String) (body : List PyNode) :
    PyState × List PyRecord :=
  let st1 : PyState := ⟨st.currentPath ++ [n], st.orderCounter + 1⟩
  let row : PyRecord := ⟨"class", n, getCurrentPath st1, st1.orderCounter⟩
  let p := processClassBody st1 body
  (⟨p.1.currentPath.dropLast, p.1.orderCounter⟩, row :: p.2)
termination_by (sizeOf body, 1)

/-- The child loop of _process_class (lines 208-211). -/
def processClassBody (st : PyState) : List PyNode → PyState × List PyRecord
  | [] => (st, [])
  | PyNode.funcDef n b :: rest =>
    let p := processNode st (PyNode.funcDef n b)
    let q := processClassBody p.1 rest
    (q.1, p.2 ++ q.2)
  | PyNode.classDef n b :: rest =>
    let p := processNode st (PyNode.classDef n b)
    let q := processClassBody p.1 rest
    (q.1, p.2 ++ q.2)
  | _ :: rest => processClassBody st rest
termination_by l => (sizeOf l, 0)

/-- Sequential processing of a list of sibling nodes (the Module arm of
_process_node and the child recursion of the catch-all arm). -/
def processChildren (st : PyState) : List PyNode → PyState × List PyRecord
  | [] => (st, [])
  | n :: rest =>
    let p := processNode st n
    let q := processChildren p.1 rest
    (q.1, p.2 ++ q.2)
termination_by l => (sizeOf l, 0)
end

/-- PythonProcessor.process_file (lines 48-119) restricted to the traversal:
line 63 resets self._order_counter to zero (self._current_path is NOT
reset), then the module's children are processed in order; the rows listed
are the file's results_data entries in append order. -/
def pyProcessFile (st : PyState) (moduleBody : List PyNode) : PyState × List PyRecord :=
  processChildren ⟨st.currentPath, 0⟩ moduleBody

/-! ## Order invariant stated over the traversal -/

/-- The order bookkeeping a traversal step satisfies: the counter never
decreases, every emitted order value lies strictly above the starting
counter and at most at the final counter, and the emitted order values are
non-decreasing in emission order. -/
def OrderSpec (c cf : Nat) (recs : List PyRecord) : Prop :=
  c ≤ cf ∧ (∀ r ∈ recs, c < r.order ∧ r.order ≤ cf) ∧
    List.Chain' (fun a b => a ≤ b) (recs.map PyRecord.order)

/-! ## Concrete instances used by the claim theorems and witnesses -/

/-- Fresh registry state with the default chunk size 100 (line 192). -/
def st0 : RegistryState := ⟨[], [], 0, [], 100⟩

/-- Fresh registry state with chunk threshold 2. -/
def stThresh2 : RegistryState := ⟨[], [], 0, [], 2⟩

/-- Fresh registry state with chunk threshold 1. -/
def stThresh1 : RegistryState := ⟨[], [], 0, [], 1⟩

/-- A processable Python file, valid result, get_results_dataframe granted
(counterfactually, to exercise the accumulation code at lines 437-458). -/
def fA : FileOutcome := ⟨true, "/r/a.py", "a.py", "text/x-python", true, false, false, true, false, [0], false⟩

/-- A second such Python file. -/
def fB : FileOutcome := ⟨true, "/r/b.py", "b.py", "text/x-python", true, false, false, true, false, [1], false⟩

/-- A processable Python file with a valid result, processed by a registered
processor, for which the get_results_dataframe lookup raises (as it does for
every processor in the repository). -/
def fDup : FileOutcome := ⟨true, "/r/dup.py", "dup.py", "text/x-python", true, false, false, true, true, [0], false⟩

/-- A file whose extractor reports content errors: the result is invalid. -/
def fInvalid : FileOutcome := ⟨true, "/r/bad.py", "bad.py", "text/x-python", true, false, false, false, true, [], false⟩

/-- A valid file whose flush attempt hits a storage failure in _write_chunk. -/
def fFailFlush : FileOutcome := ⟨true, "/r/c.py", "c.py", "text/x-python", true, false, false, true, false, [2], true⟩

/-- A valid file of another type processed after the storage failure. -/
def fAfter : FileOutcome := ⟨true, "/r/d.yaml", "d.yaml", "text/x-yaml", true, false, false, true, false, [3], false⟩

/-- End-of-run registry state of a threshold-10^6 run over one valid file:
its records sit in the in-memory chunk, no chunk file was ever spilled. -/
def stBuffered : RegistryState :=
  ⟨["/r/a.py"], [("text/x-python", [⟨"a.py", [10, 11]⟩])], 0, [], 1000000⟩

/-- End-of-run registry state of a run that spilled eleven chunk files,
numbered 0 through 10 in creation order. -/
def stElevenChunks : RegistryState :=
  ⟨[], [], 11, (List.range 11).map (fun n => (n, [("text/x-python", [⟨"f.py", [n]⟩])])), 100⟩

/-- A directory tree: a dir matching the default glob pattern *.egg-info, a
dir exactly matching the default ignore name .git, and a top-level file. -/
def sampleTree : List FsEntry :=
  [FsEntry.dir "pkg.egg-info" [FsEntry.file "a.py"],
   FsEntry.dir ".git" [FsEntry.file "b.py"],
   FsEntry.file "top.py"]

/-- An existing regular file with a .py extension and binary garbage content:
magic would sniff application/octet-stream. -/
def garbagePy : FsFileInfo := ⟨"dir/garbage.py", true, false, 2048, some "application/octet-stream", none⟩

/-! # Theorems -/

/-! ## C10 -/

/-- C10: for every existing regular file whose lowercase extension appears in
the static extension table, detect_type returns the table's specific type,
and the answer does not depend on the file's size, sniffed mime type or
mimetypes guess (the content is never consulted); in particular a .py file
with binary garbage content classifies as text/x-python. -/
theorem detectType_extension_wins (f : FsFileInfo) (t : String)
    (h1 : f.fsExists = true) (h2 : f.isDir = false)
    (h3 : lookupMime (lowerStr (splitextExt f.path)) = some t) :
    detectType f = t ∧
      ∀ (n : Nat) (m g : Option String),
        detectType { f with size := n, magicMime := m, guessedMime := g } = t := by
  constructor
  · simp [detectType, h1, h2, h3]
  · intro n m g
    simp [detectType, h1, h2, h3]

/-- Witness for C10 at the binary-garbage .py file. -/
theorem detectType_extension_wins_w :
    detectType garbagePy = "text/x-python" :=
  (detectType_extension_wins garbagePy "text/x-python" rfl rfl (by decide)).1

/-! ## C3 -/

/-- C3: whenever the get_results_dataframe attribute lookup raises (which it
does for every processor the repository registers, the method being defined
nowhere), process_file returns either None or a result whose is_valid() is
false; a valid result never reaches the caller because the accumulation step
raises first and the except arm at line 473 converts that to None. -/
theorem processFile_never_returns_valid (st : RegistryState) (f : FileOutcome)
    (h : f.grdfRaises = true) :
    (processFile st f).2 = none ∨ (processFile st f).2 = some false := by
  unfold processFile
  repeat' split
  all_goals first
    | exact Or.inl rfl
    | exact Or.inr rfl

/-- Witness for C3: a fresh registry and a valid Python file handled by a
repository processor. -/
theorem processFile_never_returns_valid_w :
    (processFile st0 fDup).2 = none ∨ (processFile st0 fDup).2 = some false :=
  processFile_never_returns_valid st0 fDup rfl

/-! ## C1 -/

/-- C1: the flush predicate at line 448 measures len(self._current_chunk),
the number of distinct file TYPES in the chunk, not the number of distinct
file entries: after two same-type files are appended under chunk threshold
2 the chunk holds exactly threshold-many file entries, yet no chunk file has
been written and the chunk counter is still zero (and in the unpatched code
the append itself is unreachable, since get_results_dataframe raises before
line 437; the two files here are granted that method to exercise the flush
logic as written). -/
theorem chunk_flush_counts_types_not_file_entries :
    chunkFileEntryCount (processFiles stThresh2 [fA, fB]).1.currentChunk = stThresh2.chunkSize ∧
    (processFiles stThresh2 [fA, fB]).1.chunkFiles = [] ∧
    (processFiles stThresh2 [fA, fB]).1.chunkCounter = 0 ∧
    chunkLen (processFiles stThresh2 [fA, fB]).1.currentChunk = 1 := by decide

/-! ## C2 -/

/-- C2: write_results_to_csv never flushes the in-memory chunk: on the final
state of a threshold-10^6 run whose records are still buffered, it writes no
rows at all and leaves the buffered chunk exactly where it was, so those
records are lost rather than materialized. -/
theorem materialization_loses_buffered_records :
    stBuffered.currentChunk ≠ [] ∧
    (writeResultsToCsvCombined stBuffered).1 = [] ∧
    (writeResultsToCsvCombined stBuffered).2.currentChunk = stBuffered.currentChunk := by decide

/-! ## C5 -/

/-- C5: the chunk files are consumed in lexicographic filename order, which
differs from numeric creation order as soon as eleven chunks exist
(chunk_10.pkl sorts before chunk_2.pkl); and since pickle is not defined in
module scope, every chunk load raises NameError and the final output
contains no rows at all. -/
theorem chunk_consumption_order_not_numeric :
    (sortChunkFiles stElevenChunks.chunkFiles).map (fun cf => chunkFileName cf.1) =
      ["chunk_0.pkl", "chunk_1.pkl", "chunk_10.pkl", "chunk_2.pkl", "chunk_3.pkl",
       "chunk_4.pkl", "chunk_5.pkl", "chunk_6.pkl", "chunk_7.pkl", "chunk_8.pkl",
       "chunk_9.pkl"] ∧
    pickleInModuleScope = false ∧
    (writeResultsToCsvCombined stElevenChunks).1 = [] := by decide

/-! ## C6 -/

/-- C6: the directory pkg.egg-info matches the default glob ignore pattern
*.egg-info, yet the walk descends into it and hands its file to process_file,
because the glob set built at lines 520-537 is never consulted by the prune
filter at line 542; the exact-name ignore .git, by contrast, is pruned. -/
theorem glob_ignored_dir_not_pruned :
    globMatches "*.egg-info" "pkg.egg-info" = true ∧
    (globIgnorePatterns []).contains "*.egg-info" = true ∧
    (processDirectoryWalk [] "root" sampleTree).contains "root/pkg.egg-info/a.py" = true ∧
    (processDirectoryWalk [] "root" sampleTree).contains "root/.git/b.py" = false := by
  refine ⟨?_, by decide, ?_, ?_⟩
  · simp [globMatches, globMatchL]
  · simp [processDirectoryWalk, exactIgnores, defaultIgnoreDirs, hasStar, sampleTree,
      walkDir, walkSubdirs, childFileNames]
  · simp [processDirectoryWalk, exactIgnores, defaultIgnoreDirs, hasStar, sampleTree,
      walkDir, walkSubdirs, childFileNames]

/-! ## C7 -/

/-- C7: processing the same valid Python file twice with a repository
processor leaves the registry state completely unchanged both times: the
AttributeError raised by the missing get_results_dataframe aborts the
accumulation before the ledger marking at line 461, so the ledger stays
empty, the second invocation is a full re-processing rather than a ledger
skip, and zero (not one) record sets reach the chunk. -/
theorem reprocessing_not_skipped_and_no_records :
    processFiles st0 [fDup, fDup] = (st0, [none, none]) ∧
    st0.processedFiles = [] ∧
    chunkFileEntryCount st0.currentChunk = 0 := by decide

/-! ## C8 -/

/-- C8 counterexample: a file whose extractor reports content errors is
excluded from the chunk, but its path is NOT marked processed: the ledger
insertion at line 461 sits inside the is_valid() branch, so the state is
returned untouched. -/
theorem invalid_result_path_not_marked :
    (processFile st0 fInvalid).1 = st0 ∧
    (processFile st0 fInvalid).2 = some false ∧
    st0.processedFiles.contains fInvalid.absPath = false := by decide

/-- C8 amended: for every file whose extractor returns an invalid result,
the records are excluded from chunk accumulation and processing continues
(the invalid result is returned without raising), but the path is NOT
marked processed in the ledger: the state is returned unchanged. -/
theorem invalid_result_excluded_unmarked_continue (st : RegistryState) (f : FileOutcome)
    (h1 : f.fsExists = true) (h2 : st.processedFiles.contains f.absPath = false)
    (h3 : f.processorFound = true) (h4 : f.processRaises = false)
    (h5 : f.resultIsNone = false) (h6 : f.resultValid = false) :
    processFile st f = (st, some false) := by
  have h2m : f.absPath ∉ st.processedFiles := by
    simpa using h2
  simp [processFile, h1, h2m, h3, h4, h5, h6]

/-- Witness for the amended C8 statement. -/
theorem invalid_result_excluded_unmarked_continue_w :
    processFile st0 fInvalid = (st0, some false) :=
  invalid_result_excluded_unmarked_continue st0 fInvalid rfl rfl rfl rfl rfl rfl

/-! ## C9 -/

/-- C9 counterexample: a storage failure while flushing the first file's
chunk is absorbed inside process_file (the per-file except arm at line 473
catches the exception _write_chunk re-raises), and the run continues: the
next file is still processed, its flush succeeds and writes a chunk file,
so the failure did not propagate out of the per-file loop and the run did
not abort. -/
theorem chunk_write_failure_run_continues :
    (processFiles stThresh1 [fFailFlush, fAfter]).2 = [none, some true] ∧
    (processFiles stThresh1 [fFailFlush, fAfter]).1.chunkFiles.length = 1 ∧
    (processFiles stThresh1 [fFailFlush, fAfter]).1.processedFiles = ["/r/d.yaml"] := by decide

/-- C9 amended: when writing the chunk fails, _write_chunk logs and
re-raises, but process_file's blanket per-file handler catches the
exception and returns None like any file-granularity failure: the appended
entry stays in the in-memory chunk, the file is not marked processed, no
chunk file is written, and the run continues with the next file instead of
aborting. -/
theorem chunk_write_failure_recovered_locally (st : RegistryState) (f : FileOutcome)
    (h1 : f.fsExists = true) (h2 : st.processedFiles.contains f.absPath = false)
    (h3 : f.processorFound = true) (h4 : f.processRaises = false)
    (h5 : f.resultIsNone = false) (h6 : f.resultValid = true) (h7 : f.grdfRaises = false)
    (h8 : st.chunkSize ≤ chunkLen (chunkAppend st.currentChunk f.fileType ⟨f.filename, f.grdfData⟩))
    (h9 : f.chunkWriteFails = true) :
    processFile st f =
      ({ st with currentChunk := chunkAppend st.currentChunk f.fileType ⟨f.filename, f.grdfData⟩ },
        none) := by
  have h2m : f.absPath ∉ st.processedFiles := by
    simpa using h2
  simp [processFile, h1, h2m, h3, h4, h5, h6, h7, h8, h9]

/-- Witness for the amended C9 statement. -/
theorem chunk_write_failure_recovered_locally_w :
    processFile stThresh1 fFailFlush =
      ({ stThresh1 with
          currentChunk := chunkAppend stThresh1.currentChunk fFailFlush.fileType
            ⟨fFailFlush.filename, fFailFlush.grdfData⟩ }, none) :=
  chunk_write_failure_recovered_locally stThresh1 fFailFlush rfl rfl rfl rfl rfl rfl rfl
    (by decide) rfl

/-! ## C4: order bookkeeping of the Python processor -/

/-- Membership follows from getLast? membership. -/
theorem memOfGetLastOpt {α : Type} {l : List α} {x : α} (h : x ∈ l.getLast?) : x ∈ l := by
  obtain ⟨hne, rfl⟩ := List.mem_getLast?_eq_getLast h
  exact List.getLast_mem hne

/-- Two non-decreasing runs concatenate when a bound separates them. -/
theorem chainLeAppend {l1 l2 : List Nat} {b : Nat}
    (h1 : List.Chain' (fun a c => a ≤ c) l1) (h2 : List.Chain' (fun a c => a ≤ c) l2)
    (hb1 : ∀ x ∈ l1, x ≤ b) (hb2 : ∀ x ∈ l2, b ≤ x) :
    List.Chain' (fun a c => a ≤ c) (l1 ++ l2) := by
  rw [List.chain'_append]
  exact ⟨h1, h2, fun x hx y hy =>
    le_trans (hb1 x (memOfGetLastOpt hx)) (hb2 y (List.mem_of_mem_head? hy))⟩

/-- A list of equal values is non-decreasing. -/
theorem chainLeOfConst (l : List Nat) (c : Nat) (h : ∀ x ∈ l, x = c) :
    List.Chain' (fun a b => a ≤ b) l := by
  induction l with
  | nil => simp
  | cons x xs ih =>
    rw [List.chain'_cons']
    refine ⟨fun y hy => ?_, ih (fun y hy => h y (List.mem_cons_of_mem _ hy))⟩
    rw [h x (List.mem_cons_self _ _),
      h y (List.mem_cons_of_mem _ (List.mem_of_mem_head? hy))]

/-- The empty traversal step. -/
theorem orderSpecNil (c : Nat) : OrderSpec c c [] := by
  refine ⟨le_refl c, ?_, by simp⟩
  intro r hr
  simp at hr

/-- A step that bumps the counter once and emits records all carrying the
bumped value. -/
theorem orderSpecConst {c : Nat} (recs : List PyRecord)
    (h : ∀ r ∈ recs, r.order = c + 1) : OrderSpec c (c + 1) recs := by
  refine ⟨Nat.le_succ c, fun r hr => ?_, ?_⟩
  · rw [h r hr]; omega
  · refine chainLeOfConst _ (c + 1) ?_
    intro x hx
    obtain ⟨r, hr, rfl⟩ := List.mem_map.mp hx
    exact h r hr

/-- Sequencing two traversal steps. -/
theorem orderSpecSeq {c1 c2 c3 : Nat} {r1 r2 : List PyRecord}
    (h1 : OrderSpec c1 c2 r1) (h2 : OrderSpec c2 c3 r2) :
    OrderSpec c1 c3 (r1 ++ r2) := by
  obtain ⟨a1, b1, ch1⟩ := h1
  obtain ⟨a2, b2, ch2⟩ := h2
  refine ⟨le_trans a1 a2, fun r hr => ?_, ?_⟩
  · rcases List.mem_append.mp hr with h | h
    · exact ⟨(b1 r h).1, le_trans (b1 r h).2 a2⟩
    · exact ⟨lt_of_le_of_lt a1 (b2 r h).1, (b2 r h).2⟩
  · rw [List.map_append]
    refine chainLeAppend (b := c2) ch1 ch2 (fun x hx => ?_) (fun x hx => ?_)
    · obtain ⟨r, hr, rfl⟩ := List.mem_map.mp hx
      exact (b1 r hr).2
    · obtain ⟨r, hr, rfl⟩ := List.mem_map.mp hx
      exact le_of_lt (b2 r hr).1

/-- Prepending the row a push-and-bump construct emits before its children. -/
theorem orderSpecCons {c cf : Nat} {row : PyRecord} {recs : List PyRecord}
    (hrow : row.order = c + 1) (h : OrderSpec (c + 1) cf recs) :
    OrderSpec c cf (row :: recs) := by
  obtain ⟨a, b, ch⟩ := h
  refine ⟨by omega, fun r hr => ?_, ?_⟩
  · rcases List.mem_cons.mp hr with rfl | hr
    · rw [hrow]; exact ⟨Nat.lt_succ_self c, a⟩
    · exact ⟨by have := (b r hr).1; omega, (b r hr).2⟩
  · rw [List.map_cons, List.chain'_cons']
    refine ⟨fun y hy => ?_, ch⟩
    obtain ⟨r, hr, rfl⟩ := List.mem_map.mp (List.mem_of_mem_head? hy)
    rw [hrow]
    exact le_of_lt (b r hr).1

/-- The plain-import step satisfies the order bookkeeping. -/
theorem importStmt_spec (st : PyState) (names : List String) :
    OrderSpec st.orderCounter (processImportStmt st names).1.orderCounter
      (processImportStmt st names).2 := by
  refine orderSpecConst _ ?_
  intro r hr
  simp [processImportStmt] at hr
  obtain ⟨nm, _, rfl⟩ := hr
  rfl

/-- The from-import step satisfies the order bookkeeping. -/
theorem importFrom_spec (st : PyState) (m : String) (names : List String) :
    OrderSpec st.orderCounter (processImportFrom st m names).1.orderCounter
      (processImportFrom st m names).2 := by
  refine orderSpecConst _ ?_
  intro r hr
  simp [processImportFrom] at hr
  obtain ⟨nm, _, rfl⟩ := hr
  rfl

/-- The assignment step satisfies the order bookkeeping. -/
theorem assign_spec (st : PyState) (targets : List String) :
    OrderSpec st.orderCounter (processAssign st targets).1.orderCounter
      (processAssign st targets).2 := by
  unfold processAssign
  split
  · refine orderSpecConst _ ?_
    intro r hr
    simp at hr
    obtain ⟨t, _, rfl⟩ := hr
    rfl
  · exact orderSpecNil st.orderCounter

mutual
/-- Each node dispatch preserves the order bookkeeping. -/
theorem processNode_spec (st : PyState) (n : PyNode) :
    OrderSpec st.orderCounter (processNode st n).1.orderCounter (processNode st n).2 := by
  cases n with
  | funcDef nm body => simpa [processNode] using processFunctionDef_spec st nm body
  | classDef nm body => simpa [processNode] using processClassDef_spec st nm body
  | importStmt names => simpa [processNode] using importStmt_spec st names
  | importFromStmt m names => simpa [processNode] using importFrom_spec st m names
  | assign targets => simpa [processNode] using assign_spec st targets
  | otherNode children => simpa [processNode] using processChildren_spec st children
termination_by (sizeOf n, 0)

/-- A function definition preserves the order bookkeeping. -/
theorem processFunctionDef_spec (st : PyState) (nm : String) (body : List PyNode) :
    OrderSpec st.orderCounter (processFunctionDef st nm body).1.orderCounter
      (processFunctionDef st nm body).2 := by
  have h := processFuncBody_spec ⟨st.currentPath ++ [nm], st.orderCounter + 1⟩ body
  simp only [processFunctionDef]
  exact orderSpecCons rfl h
termination_by (sizeOf body, 1)

/-- The function-child loop preserves the order bookkeeping. -/
theorem processFuncBody_spec (st : PyState) (l : List PyNode) :
    OrderSpec st.orderCounter (processFuncBody st l).1.orderCounter
      (processFuncBody st l).2 := by
  cases l with
  | nil => simpa [processFuncBody] using orderSpecNil st.orderCounter
  | cons hd rest =>
    cases hd with
    | funcDef n b =>
      have h1 := processFunctionDef_spec st n b
      have h2 := processFuncBody_spec (processFunctionDef st n b).1 rest
      simpa [processFuncBody] using orderSpecSeq h1 h2
    | classDef n b => simpa [processFuncBody] using processFuncBody_spec st rest
    | importStmt names => simpa [processFuncBody] using processFuncBody_spec st rest
    | importFromStmt m names => simpa [processFuncBody] using processFuncBody_spec st rest
    | assign t => simpa [processFuncBody] using processFuncBody_spec st rest
    | otherNode cs => simpa [processFuncBody] using processFuncBody_spec st rest
termination_by (sizeOf l, 0)

/-- A class definition preserves the order bookkeeping. -/
theorem processClassDef_spec (st : PyState) (nm : String) (body : List PyNode) :
    OrderSpec st.orderCounter (processClassDef st nm body).1.orderCounter
      (processClassDef st nm body).2 := by
  have h := processClassBody_spec ⟨st.currentPath ++ [nm], st.orderCounter + 1⟩ body
  simp only [processClassDef]
  exact orderSpecCons rfl h
termination_by (sizeOf body, 1)

/-- The class-child loop preserves the order bookkeeping. -/
theorem processClassBody_spec (st : PyState) (l : List PyNode) :
    OrderSpec st.orderCounter (processClassBody st l).1.orderCounter
      (processClassBody st l).2 := by
  cases l with
  | nil => simpa [processClassBody] using orderSpecNil st.orderCounter
  | cons hd rest =>
    cases hd with
    | funcDef n b =>
      have h1 := processNode_spec st (PyNode.funcDef n b)
      have h2 := processClassBody_spec (processNode st (PyNode.funcDef n b)).1 rest
      simpa [processClassBody] using orderSpecSeq h1 h2
    | classDef n b =>
      have h1 := processNode_spec st (PyNode.classDef n b)
      have h2 := processClassBody_spec (processNode st (PyNode.classDef n b)).1 rest
      simpa [processClassBody] using orderSpecSeq h1 h2
    | importStmt names => simpa [processClassBody] using processClassBody_spec st rest
    | importFromStmt m names => simpa [processClassBody] using processClassBody_spec st rest
    | assign t => simpa [processClassBody] using processClassBody_spec st rest
    | otherNode cs => simpa [processClassBody] using processClassBody_spec st rest
termination_by (sizeOf l, 0)

/-- Sequential sibling processing preserves the order bookkeeping. -/
theorem processChildren_spec (st : PyState) (l : List PyNode) :
    OrderSpec st.orderCounter (processChildren st l).1.orderCounter
      (processChildren st l).2 := by
  cases l with
  | nil => simpa [processChildren] using orderSpecNil st.orderCounter
  | cons hd rest =>
    have h1 := processNode_spec st hd
    have h2 := processChildren_spec (processNode st hd).1 rest
    simpa [processChildren] using orderSpecSeq h1 h2
termination_by (sizeOf l, 0)
end

/-- C4 counterexample: the file consisting of the single statement importing
the two names os and sys produces two records BOTH carrying order value 1:
within one import statement the counter is incremented once and shared by
every name, so the order field is not strictly increasing (and not unique)
across the file's records. -/
theorem order_repeats_for_multi_name_import :
    ((pyProcessFile ⟨[], 7⟩ [PyNode.importStmt ["os", "sys"]]).2.map PyRecord.order = [1, 1]) ∧
    ¬ List.Chain' (fun a b => a < b)
        ((pyProcessFile ⟨[], 7⟩ [PyNode.importStmt ["os", "sys"]]).2.map PyRecord.order) := by
  have h : (pyProcessFile ⟨[], 7⟩ [PyNode.importStmt ["os", "sys"]]).2.map PyRecord.order
      = [1, 1] := by
    simp [pyProcessFile, processChildren, processNode, processImportStmt, getCurrentPath]
  refine ⟨h, ?_⟩
  rw [h]
  simp [List.chain'_cons]

/-- C4 amended: within the record set the Python extractor produces for one
file, the order field is non-decreasing in emission order (records emitted
by one multi-name import or multi-target assignment share an order value),
and the counter is reset at the start of each file: the traversal result is
independent of the counter the processor held beforehand. -/
theorem pyProcessFile_order_nondecreasing (st : PyState) (body : List PyNode) :
    List.Chain' (fun a b => a ≤ b) ((pyProcessFile st body).2.map PyRecord.order) ∧
    pyProcessFile st body = processChildren ⟨st.currentPath, 0⟩ body :=
  ⟨(processChildren_spec ⟨st.currentPath, 0⟩ body).2.2, rfl⟩
